import Mathlib

/-!
Shallow embedding of the user-management core of the application:
entities with their validation, the five use cases, the repository
operations they call, the pagination types, the boundary error handler
and the transaction harness.  Each definition is translated from the
TypeScript source file named in its doc comment.  Theorems C1 .. C10
settle the frozen claims about this code.

Modelling conventions:
* JavaScript strings are Lean `String`; the handful of string methods
  the source uses (`toLowerCase`, `trim`, `split`-like regex matching)
  are re-implemented structurally over `List Char` so that concrete
  evaluations reduce in the kernel.  They agree with the JS methods on
  the ASCII inputs the claims are about.
* `null`/`undefined` fields are `Option`; the JS falsiness test `!x`
  on a string-or-nullish value is `jsFalsyStr`/`jsFalsyOptStr`.
* JS numbers appearing as page sizes are `Int` (all call sites are
  integral); `Math.max`/`Math.min`/`Math.ceil` become `max`/`min` and
  euclidean division (they agree on the positive divisors used here).
* `typeof x !== 'string'` / `typeof x !== 'boolean'` guards can never
  fire in this typed model and are dropped.
* Asynchronous calls are ordinary function calls: every use case is a
  single sequential pass, matching the source, which awaits each step.
-/

/-- Decidable equality for `Except`, so that concrete use-case outcomes
can be checked by `decide`. -/
instance instDecEqExcept {ε α : Type} [DecidableEq ε] [DecidableEq α] :
    DecidableEq (Except ε α) := fun x y =>
  match x, y with
  | .ok a, .ok b =>
      if h : a = b then .isTrue (by rw [h]) else .isFalse (by simp [h])
  | .error a, .error b =>
      if h : a = b then .isTrue (by rw [h]) else .isFalse (by simp [h])
  | .ok _, .error _ => .isFalse (by simp)
  | .error _, .ok _ => .isFalse (by simp)

/-- JS whitespace test (the `\s` class restricted to its ASCII members,
which covers every input in this development). -/
def jsWhitespaceChar (c : Char) : Bool :=
  c = ' ' || c = '\t' || c = '\n' || c = '\r' || c = '\x0b' || c = '\x0c'

/-- ASCII case lowering for one character; agrees with JS
`String.prototype.toLowerCase` on ASCII data. -/
def asciiLowerChar (c : Char) : Char :=
  if c = 'A' then 'a' else if c = 'B' then 'b' else if c = 'C' then 'c'
  else if c = 'D' then 'd' else if c = 'E' then 'e' else if c = 'F' then 'f'
  else if c = 'G' then 'g' else if c = 'H' then 'h' else if c = 'I' then 'i'
  else if c = 'J' then 'j' else if c = 'K' then 'k' else if c = 'L' then 'l'
  else if c = 'M' then 'm' else if c = 'N' then 'n' else if c = 'O' then 'o'
  else if c = 'P' then 'p' else if c = 'Q' then 'q' else if c = 'R' then 'r'
  else if c = 'S' then 's' else if c = 'T' then 't' else if c = 'U' then 'u'
  else if c = 'V' then 'v' else if c = 'W' then 'w' else if c = 'X' then 'x'
  else if c = 'Y' then 'y' else if c = 'Z' then 'z' else c

/-- JS `toLowerCase` (ASCII fragment), as used on emails and providers. -/
def toLowerCase (s : String) : String :=
  ⟨s.data.map asciiLowerChar⟩

/-- Characters remaining after JS `trim`. -/
def trimChars (l : List Char) : List Char :=
  ((l.dropWhile jsWhitespaceChar).reverse.dropWhile jsWhitespaceChar).reverse

/-- Test for `s.trim().length === 0`. -/
def isBlank (s : String) : Bool :=
  (trimChars s.data).isEmpty

/-- Split a character list at every occurrence of a separator. -/
def splitOnChar (sep : Char) : List Char → List (List Char)
  | [] => [[]]
  | c :: rest =>
      let r := splitOnChar sep rest
      if c = sep then [] :: r
      else
        match r with
        | [] => [[c]]
        | h :: t => (c :: h) :: t

/-- The email-shape regex of the source files
(`/^[^\s@]+@[^\s@]+\.[^\s@]+$/`, `User._isValidEmail` and
`UserAuthentication._isValidEmail`): exactly one at sign, a nonempty
whitespace-free local part, and a nonempty whitespace-free domain
containing a dot with at least one character on each side. -/
def isValidEmailShape (s : String) : Bool :=
  match splitOnChar '@' s.data with
  | [a, b] =>
      !a.isEmpty && a.all (fun c => !jsWhitespaceChar c) &&
      !b.isEmpty && b.all (fun c => !jsWhitespaceChar c) &&
      ((b.drop 1).dropLast.contains '.')
  | _ => false

/-- Hexadecimal digit (both cases; the UUID regex carries the `i` flag). -/
def isHexChar (c : Char) : Bool :=
  c.isDigit || ('a' ≤ c && c ≤ 'f') || ('A' ≤ c && c ≤ 'F')

/-- The UUID regex of `DeleteUserUseCase.validateCommand`
(`/^[0-9a-f]{8}-[0-9a-f]{4}-[1-5][0-9a-f]{3}-[89ab][0-9a-f]{3}-[0-9a-f]{12}$/i`). -/
def isUuidFormat (s : String) : Bool :=
  match splitOnChar '-' s.data with
  | [a, b, c, d, e] =>
      (a.length == 8) && a.all isHexChar &&
      (b.length == 4) && b.all isHexChar &&
      (c.length == 4) && c.all isHexChar &&
      (d.length == 4) && d.all isHexChar &&
      (e.length == 12) && e.all isHexChar &&
      (match c with
       | ch :: _ => ['1', '2', '3', '4', '5'].contains ch
       | [] => false) &&
      (match d with
       | ch :: _ => ['8', '9', 'a', 'b', 'A', 'B'].contains ch
       | [] => false)
  | _ => false

/-- JS falsiness of a `string` value (`!s` is true exactly on `""`). -/
def jsFalsyStr (s : String) : Bool :=
  s.isEmpty

/-- JS falsiness of a `string | null | undefined` value. -/
def jsFalsyOptStr : Option String → Bool
  | none => true
  | some s => s.isEmpty

/-- `shared/types/ValidationTypes.ts`: `ValidationError { field, message }`. -/
structure ValidationError where
  field : String
  message : String
deriving Repr, DecidableEq

/-- `shared/types/ValidationTypes.ts`: `ValidationResult { valid, errors }`. -/
structure ValidationResult where
  valid : Bool
  errors : List ValidationError
deriving Repr, DecidableEq

/-- `ValidationResult.success()`. -/
def ValidationResult.success : ValidationResult :=
  ⟨true, []⟩

/-- `ValidationResult.failure(errors)`. -/
def ValidationResult.failure (errors : List ValidationError) : ValidationResult :=
  ⟨false, errors⟩

/-- `shared/types/ValidationTypes.ts`: per-request `Context` (the
`requestId` and the app handle play no part in any claim and are not
modelled; `userId` is nullable). -/
structure Context where
  userId : Option String
deriving Repr, DecidableEq

/-- `domain/entities/DomainErrors.ts`: the typed error hierarchy.  Each
constructor is one of the error classes; `validation` carries the
`fieldErrors` list of `ValidationDomainError`. -/
inductive DomainError where
  | validation (message : String) (fieldErrors : List ValidationError)
  | authentication (message : String)
  | authorization (message : String)
  | notFound (message : String)
  | conflict (message : String)
  | system (message : String)
deriving Repr, DecidableEq

/-- The immutable `code` field (`DomainErrorCode`, a string enum). -/
def DomainError.code : DomainError → String
  | .validation _ _ => "VALIDATION"
  | .authentication _ => "AUTHENTICATION"
  | .authorization _ => "AUTHORIZATION"
  | .notFound _ => "NOT_FOUND"
  | .conflict _ => "CONFLICT"
  | .system _ => "SYSTEM"

/-- The human `message` of a domain error. -/
def DomainError.message : DomainError → String
  | .validation m _ => m
  | .authentication m => m
  | .authorization m => m
  | .notFound m => m
  | .conflict m => m
  | .system m => m

/-- `domain/entities/User.ts`: the `User` entity (the optional
`createdAt`/`updatedAt` timestamps take no part in validation or in any
claim and are not modelled). -/
structure User where
  id : Option String
  email : String
  firstName : String
  lastName : String
  isActive : Bool
  isAdmin : Bool
deriving Repr, DecidableEq

/-- `domain/entities/Entity.ts` `hasValidId`:
`!!this.id && typeof this.id === 'string' && this.id.length > 0`. -/
def hasValidId : Option String → Bool
  | some s => !s.isEmpty
  | none => false

/-- `User.validate()` from `domain/entities/User.ts`, returning the
accumulated error list (the result is wrapped in a `ValidationResult`
whose `valid` bit is `errors.isEmpty`).  The `typeof`-boolean checks on
`isActive`/`isAdmin` cannot fire in the typed model. -/
def User.validate (u : User) : List ValidationError :=
  (if !hasValidId u.id then
    [⟨"id", "ID is required and must be a non-empty string"⟩] else [])
  ++ (if jsFalsyStr u.email then [⟨"email", "Email is required"⟩]
      else
        (if u.email.length > 255 then
          [⟨"email", "Email must not exceed 255 characters"⟩] else [])
        ++ (if !isValidEmailShape u.email then
          [⟨"email", "Email format is invalid"⟩] else []))
  ++ (if jsFalsyStr u.firstName then [⟨"firstName", "First name is required"⟩]
      else if u.firstName.length > 100 then
        [⟨"firstName", "First name must not exceed 100 characters"⟩]
      else if isBlank u.firstName then
        [⟨"firstName", "First name cannot be empty"⟩]
      else [])
  ++ (if jsFalsyStr u.lastName then [⟨"lastName", "Last name is required"⟩]
      else if u.lastName.length > 100 then
        [⟨"lastName", "Last name must not exceed 100 characters"⟩]
      else if isBlank u.lastName then
        [⟨"lastName", "Last name cannot be empty"⟩]
      else [])

/-- `domain/entities/UserAuthentication.ts`: the weak entity
(timestamps again unmodelled; `hashedPassword` is
`string | null | undefined` collapsed into `Option String`). -/
structure UserAuthentication where
  id : Option String
  userId : String
  provider : String
  providerId : String
  hashedPassword : Option String
  isActive : Bool
deriving Repr, DecidableEq

/-- `UserAuthentication._isValidProvider`. -/
def isValidProvider (provider : String) : Bool :=
  ["email", "google", "github", "facebook", "apple", "microsoft"].contains
    (toLowerCase provider)

/-- `UserAuthentication.validate()` from
`domain/entities/UserAuthentication.ts` (error list, as for `User`). -/
def UserAuthentication.validate (a : UserAuthentication) : List ValidationError :=
  (match a.id with
   | some s =>
      if !hasValidId (some s) then
        [⟨"id", "ID must be a non-empty string when provided"⟩] else []
   | none => [])
  ++ (if jsFalsyStr a.userId || isBlank a.userId then
      [⟨"userId", "User ID is required (weak entity constraint)"⟩] else [])
  ++ (if jsFalsyStr a.provider then [⟨"provider", "Provider is required"⟩]
      else
        (if a.provider.length > 50 then
          [⟨"provider", "Provider must not exceed 50 characters"⟩] else [])
        ++ (if !isValidProvider a.provider then
          [⟨"provider", "Provider must be one of: email, google, github, facebook"⟩] else []))
  ++ (if jsFalsyStr a.providerId then [⟨"providerId", "Provider ID is required"⟩]
      else if a.providerId.length > 255 then
        [⟨"providerId", "Provider ID must not exceed 255 characters"⟩]
      else [])
  ++ (if a.provider = "email" then
        match a.hashedPassword with
        | none => [⟨"hashedPassword", "Hashed password is required for email provider"⟩]
        | some h =>
            if h.isEmpty then
              [⟨"hashedPassword", "Hashed password is required for email provider"⟩]
            else if h.length < 10 then
              [⟨"hashedPassword", "Hashed password appears to be invalid"⟩]
            else []
      else
        match a.hashedPassword with
        | some _ => [⟨"hashedPassword", "Hashed password should be null for non-email providers"⟩]
        | none => [])
  ++ (if a.provider = "email" then
        if !isValidEmailShape a.providerId then
          [⟨"providerId", "Provider ID must be a valid email for email provider"⟩]
        else []
      else [])

/-- A persisted `users` row (ids are always present in storage). -/
structure UserRow where
  id : String
  email : String
  firstName : String
  lastName : String
  isActive : Bool
  isAdmin : Bool
deriving Repr, DecidableEq

/-- A persisted `user_authentications` row. -/
structure AuthRow where
  id : String
  userId : String
  provider : String
  providerId : String
  hashedPassword : Option String
  isActive : Bool
deriving Repr, DecidableEq

/-- The storage state behind the repository: the two tables. -/
structure Db where
  users : List UserRow
  auths : List AuthRow
deriving Repr, DecidableEq

/-- `User.fromData` applied to a stored row. -/
def UserRow.toUser (r : UserRow) : User :=
  ⟨some r.id, r.email, r.firstName, r.lastName, r.isActive, r.isAdmin⟩

/-- `UserAuthentication.fromData` applied to a stored row. -/
def AuthRow.toAuth (r : AuthRow) : UserAuthentication :=
  ⟨some r.id, r.userId, r.provider, r.providerId, r.hashedPassword, r.isActive⟩

/-- `UserRepository.findById` (`data-access/repositories/UserRepository.ts`,
Prisma revision): unique lookup on `id`. -/
def UserRepository.findById (db : Db) (id : String) : Option User :=
  (db.users.find? (fun r => r.id = id)).map UserRow.toUser

/-- `UserRepository.findByEmail`: unique lookup on the lowercased email. -/
def UserRepository.findByEmail (db : Db) (email : String) : Option User :=
  (db.users.find? (fun r => r.email = toLowerCase email)).map UserRow.toUser

/-- `UserRepository.create`: inserts the entity fields in a fresh row whose
`id` is generated by the storage layer (passed in as `freshId`), and
returns the persisted entity.  The email-uniqueness constraint is not
re-checked here because the only caller pre-checks it with
`findByEmail` in the same sequential pass. -/
def UserRepository.create (db : Db) (freshId : String) (u : User) : User × Db :=
  let row : UserRow := ⟨freshId, u.email, u.firstName, u.lastName, u.isActive, u.isAdmin⟩
  (row.toUser, { db with users := db.users ++ [row] })

/-- `UserRepository.createAuthentication` (Prisma revision): inserts a row,
translating a `(provider, providerId)` unique violation (`P2002`) and a
missing-user foreign-key violation (`P2003`) into the
`ValidationDomainError`s of the source. -/
def UserRepository.createAuthentication (db : Db) (freshId : String)
    (a : UserAuthentication) : Except DomainError Db :=
  if db.auths.any (fun r => r.provider = a.provider && r.providerId = a.providerId) then
    .error (.validation "Authentication with this provider already exists"
      [⟨"provider", "Authentication with this provider already exists"⟩])
  else if !(db.users.any (fun r => r.id = a.userId)) then
    .error (.validation "User does not exist" [⟨"userId", "User does not exist"⟩])
  else
    .ok { db with auths := db.auths ++
      [⟨freshId, a.userId, a.provider, a.providerId, a.hashedPassword, a.isActive⟩] }

/-- `UserRepository.findAuthenticationByUserId` (no provider filter, as
called by `DeleteUserUseCase`). -/
def UserRepository.findAuthenticationByUserId (db : Db) (userId : String) : List AuthRow :=
  db.auths.filter (fun r => r.userId = userId)

/-- `UserRepository.findUserWithAuthentication` (Prisma revision): unique
lookup of the authentication row by `(provider, providerId =
lowercased email)`, joined with its owning user. -/
def UserRepository.findUserWithAuthentication (db : Db) (email : String)
    (provider : String) : Option (User × UserAuthentication) :=
  match db.auths.find? (fun r => r.provider = provider && r.providerId = toLowerCase email) with
  | none => none
  | some a =>
      match db.users.find? (fun r => r.id = a.userId) with
      | none => none
      | some u => some (u.toUser, a.toAuth)

/-- `domain/types/Dtos.ts` `UserDto` (timestamps unmodelled). -/
structure UserDto where
  id : String
  email : String
  firstName : String
  lastName : String
  isActive : Bool
  isAdmin : Bool
deriving Repr, DecidableEq

/-- Explicit field-by-field DTO mapping used by the use cases. -/
def User.toDto (u : User) (idValue : String) : UserDto :=
  ⟨idValue, u.email, u.firstName, u.lastName, u.isActive, u.isAdmin⟩

/-- `RegisterUserCommandDto`. -/
structure RegisterUserCommandDto where
  email : String
  firstName : String
  lastName : String
  password : String
deriving Repr, DecidableEq

/-- `RegisterUserResponseDto` (tokens are filled by the web controller and
are empty strings when the use case returns). -/
structure RegisterUserResponseDto where
  message : String
  user : UserDto
  accessToken : String
  refreshToken : String
deriving Repr, DecidableEq

/-- `RegisterUserUseCase.validateCommand`
(`domain/use-cases/RegisterUserUseCase.ts`): the accumulated error
list.  The password rules here are presence and the [8,128] length
bounds only; the thrown error is `ValidationDomainError('Invalid
registration command', errors)` when the list is nonempty. -/
def RegisterUserUseCase.validateCommand (c : RegisterUserCommandDto) : List ValidationError :=
  (if jsFalsyStr c.email || isBlank c.email then
    [⟨"email", "Email is required"⟩]
  else if c.email.length > 255 then
    [⟨"email", "Email must not exceed 255 characters"⟩]
  else [])
  ++ (if jsFalsyStr c.firstName || isBlank c.firstName then
    [⟨"firstName", "First name is required"⟩]
  else if c.firstName.length > 100 then
    [⟨"firstName", "First name must not exceed 100 characters"⟩]
  else [])
  ++ (if jsFalsyStr c.lastName || isBlank c.lastName then
    [⟨"lastName", "Last name is required"⟩]
  else if c.lastName.length > 100 then
    [⟨"lastName", "Last name must not exceed 100 characters"⟩]
  else [])
  ++ (if jsFalsyStr c.password then
    [⟨"password", "Password is required"⟩]
  else [])
  ++ (if jsFalsyStr c.password || c.password.length < 8 then
    [⟨"password", "Password must be at least 8 characters long"⟩]
  else [])
  ++ (if c.password.length > 128 then
    [⟨"password", "Password must be less than 128 characters"⟩]
  else [])

/-- `RegisterUserUseCase.execute`
(`domain/use-cases/RegisterUserUseCase.ts`): command validation, email
conflict check, construction of the `User` entity with an undefined id
("let Prisma generate the ID"), entity validation, user insert,
password hashing (the bcrypt digest is the parameter `hashed`),
construction and validation of the `UserAuthentication`, and the
authentication insert.  `freshUserId`/`freshAuthId` are the ids the
storage layer generates for the two inserts.  The result pairs the
outcome with the storage state when the use case returns or throws;
the source checks `createAuthResult.valid` after the authentication
insert, but the Prisma repository revision signals failure by throwing
instead, so the thrown error is propagated here. -/
def RegisterUserUseCase.execute (db : Db) (freshUserId freshAuthId hashed : String)
    (command : RegisterUserCommandDto) :
    Except DomainError RegisterUserResponseDto × Db :=
  let errors := RegisterUserUseCase.validateCommand command
  if errors ≠ [] then
    (.error (.validation "Invalid registration command" errors), db)
  else
    match UserRepository.findByEmail db command.email with
    | some _ => (.error (.conflict "User with this email already exists"), db)
    | none =>
      let user : User :=
        ⟨none, toLowerCase command.email, command.firstName, command.lastName, true, false⟩
      let userValidation := user.validate
      if userValidation ≠ [] then
        (.error (.validation "User entity validation failed" userValidation), db)
      else
        let (createdUser, db1) := UserRepository.create db freshUserId user
        let userAuth : UserAuthentication :=
          ⟨none, freshUserId, "email", toLowerCase command.email, some hashed, true⟩
        let authValidation := userAuth.validate
        if authValidation ≠ [] then
          (.error (.validation "User authentication validation failed" authValidation), db1)
        else
          match UserRepository.createAuthentication db1 freshAuthId userAuth with
          | .error e => (.error e, db1)
          | .ok db2 =>
              (.ok ⟨"User registered successfully",
                createdUser.toDto freshUserId, "", ""⟩, db2)

/-- A plain JS `Error`, as thrown by the current revision of
`LoginUserUseCase` (`throw new Error(JSON.stringify(errors))`). -/
structure JsError where
  message : String
deriving Repr, DecidableEq

/-- `JSON.stringify` of one `ValidationError` instance (its two
enumerable fields; none of the serialized messages need escaping). -/
def jsonOfError (e : ValidationError) : String :=
  "\x7b\"field\":\"" ++ e.field ++ "\",\"message\":\"" ++ e.message ++ "\"\x7d"

/-- `JSON.stringify` of a `ValidationError` array. -/
def jsonOfErrors (l : List ValidationError) : String :=
  "[" ++ String.intercalate "," (l.map jsonOfError) ++ "]"

/-- `LoginUserCommandDto`. -/
structure LoginUserCommandDto where
  email : String
  password : String
deriving Repr, DecidableEq

/-- The user DTO of `LoginUserResponseDto` (explicit copy without
`isAdmin`; timestamps unmodelled). -/
structure LoginUserDto where
  id : String
  email : String
  firstName : String
  lastName : String
  isActive : Bool
deriving Repr, DecidableEq

/-- `LoginUserResponseDto`. -/
structure LoginUserResponseDto where
  message : String
  user : LoginUserDto
  accessToken : String
  refreshToken : String
deriving Repr, DecidableEq

/-- `LoginUserUseCase.validateCommand`
(`domain/use-cases/LoginUserUseCase.ts`, current DTO revision). -/
def LoginUserUseCase.validateCommand (c : LoginUserCommandDto) : List ValidationError :=
  (if jsFalsyStr c.email || isBlank c.email then
    [⟨"email", "Email is required"⟩]
  else
    (if c.email.length > 320 then [⟨"email", "Email is too long"⟩] else [])
    ++ (if !isValidEmailShape c.email then [⟨"email", "Invalid email format"⟩] else []))
  ++ (if jsFalsyStr c.password then
    [⟨"password", "Password is required"⟩]
  else if c.password.length > 128 then
    [⟨"password", "Password is too long"⟩]
  else [])

/-- `LoginUserUseCase.execute` (`domain/use-cases/LoginUserUseCase.ts`,
current DTO revision, the one the claims cite).  Every failure is a
plain `Error` whose message is the JSON serialization of one field
error; `pwCompare` stands for `bcrypt.compare`.  The catch-and-rethrow
at the bottom of the source re-throws a new `Error` with the same
message and is a no-op here. -/
def LoginUserUseCase.execute (db : Db) (pwCompare : String → String → Bool)
    (command : LoginUserCommandDto) : Except JsError LoginUserResponseDto :=
  let errors := LoginUserUseCase.validateCommand command
  if errors ≠ [] then
    .error ⟨jsonOfErrors errors⟩
  else
    match UserRepository.findUserWithAuthentication db command.email "email" with
    | none =>
        .error ⟨jsonOfErrors [⟨"email", "Invalid email or password"⟩]⟩
    | some (user, authentication) =>
        if !user.isActive then
          .error ⟨jsonOfErrors [⟨"account", "Account is deactivated"⟩]⟩
        else
          match authentication.hashedPassword with
          | none =>
              .error ⟨jsonOfErrors [⟨"password", "Invalid email or password"⟩]⟩
          | some h =>
              if h.isEmpty then
                .error ⟨jsonOfErrors [⟨"password", "Invalid email or password"⟩]⟩
              else if !pwCompare command.password h then
                .error ⟨jsonOfErrors [⟨"password", "Invalid email or password"⟩]⟩
              else
                .ok ⟨"Login successful",
                  ⟨(match user.id with | some i => i | none => ""),
                    user.email, user.firstName, user.lastName, user.isActive⟩,
                  "", ""⟩

/-- `GetUserProfileQueryDto`. -/
structure GetUserProfileQueryDto where
  userId : String
deriving Repr, DecidableEq

/-- `GetUserProfileResponseDto`. -/
structure GetUserProfileResponseDto where
  user : UserDto
deriving Repr, DecidableEq

/-- `GetUserProfileUseCase.validateQuery`. -/
def GetUserProfileUseCase.validateQuery (q : GetUserProfileQueryDto) : List ValidationError :=
  if jsFalsyStr q.userId || isBlank q.userId then
    [⟨"userId", "User ID is required"⟩]
  else []

/-- `GetUserProfileUseCase.execute`
(`domain/use-cases/GetUserProfileUseCase.ts`): query validation first,
then the authorization check (which raises AuthorizationDomainError
with the message "Authentication required" when `context.userId` is
falsy), then the lookup and the active check. -/
def GetUserProfileUseCase.execute (db : Db) (context : Context)
    (query : GetUserProfileQueryDto) : Except DomainError GetUserProfileResponseDto :=
  let errors := GetUserProfileUseCase.validateQuery query
  if errors ≠ [] then
    .error (.validation "Invalid get profile query" errors)
  else if jsFalsyOptStr context.userId then
    .error (.authorization "Authentication required")
  else if context.userId ≠ some query.userId then
    .error (.authorization "Access denied - can only access own profile")
  else
    match UserRepository.findById db query.userId with
    | none => .error (.notFound "User not found")
    | some user =>
        if !user.isActive then
          .error (.authorization "Account is not active")
        else
          .ok ⟨user.toDto (match user.id with | some i => i | none => "")⟩

/-- `PaginationParams` raw fields (`domain/types/Dtos.ts`); a value of
this shape can also reach the use case structurally, without going
through the clamping constructor. -/
structure PaginationParams where
  page : Int
  pageSize : Int
deriving Repr, DecidableEq

/-- The `PaginationParams` constructor:
`page = Math.max(1, page)`, `pageSize = Math.min(Math.max(1, pageSize), 500)`. -/
def PaginationParams.make (page pageSize : Int) : PaginationParams :=
  ⟨max 1 page, min (max 1 pageSize) 500⟩

/-- `Math.ceil(a / b)` for an integral numerator and a positive integral
denominator (euclidean division rounds down, so this shifted quotient
is the ceiling). -/
def mathCeilDiv (a b : Int) : Int :=
  (a + b - 1) / b

/-- The `PaginationMeta` constructor (`domain/types/Dtos.ts` and
`shared/types/ValidationTypes.ts`, identical):
`totalPages = Math.ceil(total / pageSize)`,
`hasNext = page < totalPages`, `hasPrev = page > 1`. -/
structure PaginationMeta where
  total : Int
  page : Int
  pageSize : Int
  totalPages : Int
  hasNext : Bool
  hasPrev : Bool
deriving Repr, DecidableEq

/-- `PaginationMeta` constructor body. -/
def PaginationMeta.make (total page pageSize : Int) : PaginationMeta :=
  let totalPages := mathCeilDiv total pageSize
  ⟨total, page, pageSize, totalPages, decide (page < totalPages), decide (page > 1)⟩

/-- The repository `list` operation used by `GetAllUsersUseCase`
(interface `IUserRepository.list`; the Prisma implementation pages with
`skip = (page-1)*pageSize`, `take = pageSize` over the user table and
builds a `PaginationMeta` from the total count). -/
def UserRepository.list (db : Db) (p : PaginationParams) : List User × PaginationMeta :=
  (((db.users.drop ((p.page - 1) * p.pageSize).toNat).take p.pageSize.toNat).map
      UserRow.toUser,
    PaginationMeta.make db.users.length p.page p.pageSize)

/-- `GetAllUsersQueryDto` as `GetAllUsersUseCase.execute` reads it: an
optional structured `pagination` field, and otherwise the raw
`page`/`pageSize` query parameters (already run through `parseInt`;
a `0` value is falsy in JS and falls back to the default exactly as a
missing one does). -/
structure GetAllUsersQueryDto where
  pagination : Option PaginationParams
  page : Option Int
  pageSize : Option Int
deriving Repr, DecidableEq

/-- The `queryWithParams.page ? ... : default` resolution in
`GetAllUsersUseCase.execute`. -/
def resolveQueryParam (v : Option Int) (dflt : Int) : Int :=
  match v with
  | none => dflt
  | some n => if n = 0 then dflt else n

/-- `GetAllUsersResponseDto`. -/
structure GetAllUsersResponseDto where
  users : List UserDto
  meta : PaginationMeta
deriving Repr, DecidableEq

/-- `GetAllUsersUseCase.validatePagination`: page below 1, or page size
outside [1,500], are accumulated field errors. -/
def GetAllUsersUseCase.validatePagination (p : PaginationParams) : List ValidationError :=
  (if p.page < 1 then [⟨"page", "Page must be a positive number"⟩] else [])
  ++ (if p.pageSize < 1 || p.pageSize > 500 then
    [⟨"pageSize", "Page size must be a number between 1 and 500"⟩]
  else [])

/-- `GetAllUsersUseCase.authorizationCheck`
(`domain/use-cases/GetAllUsersUseCase.ts`): raises
AuthorizationDomainError("Authentication required") when
`context.userId` is falsy, then resolves the caller and requires an
active admin. -/
def GetAllUsersUseCase.authorizationCheck (db : Db) (context : Context) :
    Option DomainError :=
  if jsFalsyOptStr context.userId then
    some (.authorization "Authentication required")
  else
    match UserRepository.findById db (context.userId.getD "") with
    | none => some (.notFound "User not found")
    | some user =>
        if !user.isActive then
          some (.authorization "Account is not active")
        else if !user.isAdmin then
          some (.authorization "Access denied - admin privileges required")
        else
          none

/-- `GetAllUsersUseCase.execute`: authorization check, pagination
resolution (the provided `pagination` object verbatim, or the raw query
parameters run through the clamping `PaginationParams` constructor),
`validatePagination`, then the paged repository read mapped to DTOs. -/
def GetAllUsersUseCase.execute (db : Db) (context : Context)
    (query : GetAllUsersQueryDto) : Except DomainError GetAllUsersResponseDto :=
  match GetAllUsersUseCase.authorizationCheck db context with
  | some e => .error e
  | none =>
    let pagination :=
      match query.pagination with
      | some p => p
      | none =>
          PaginationParams.make (resolveQueryParam query.page 1)
            (resolveQueryParam query.pageSize 20)
    let errors := GetAllUsersUseCase.validatePagination pagination
    if errors ≠ [] then
      .error (.validation "Invalid pagination parameters" errors)
    else
      let (users, meta) := UserRepository.list db pagination
      .ok ⟨users.map (fun u => u.toDto (match u.id with | some i => i | none => "")),
        meta⟩

/-- `DeleteUserCommandDto`. -/
structure DeleteUserCommandDto where
  userId : String
deriving Repr, DecidableEq

/-- `DeleteUserResponseDto`. -/
structure DeleteUserResponseDto where
  message : String
deriving Repr, DecidableEq

/-- `DeleteUserUseCase.validateCommand`: required, then UUID format. -/
def DeleteUserUseCase.validateCommand (c : DeleteUserCommandDto) : List ValidationError :=
  if jsFalsyStr c.userId || isBlank c.userId then
    [⟨"userId", "User ID is required"⟩]
  else if !isUuidFormat c.userId then
    [⟨"userId", "User ID must be a valid UUID"⟩]
  else []

/-- `UserRepository.deleteAuthentication` as typed by `IUserRepository`
(`ValidationResult` return): deletes the rows with the given id and
reports failure when no row matched. -/
def UserRepository.deleteAuthentication (db : Db) (id : String) : ValidationResult × Db :=
  if db.auths.any (fun r => r.id = id) then
    (ValidationResult.success, { db with auths := db.auths.filter (fun r => !(r.id = id)) })
  else
    (ValidationResult.failure [⟨"id", "User authentication not found"⟩], db)

/-- `UserRepository.delete` as typed by `IUserRepository`
(`ValidationResult` return): deletes the authentications of the user
and the user row, reporting failure when the user row was absent. -/
def UserRepository.delete (db : Db) (id : String) : ValidationResult × Db :=
  if db.users.any (fun r => r.id = id) then
    (ValidationResult.success,
      ⟨db.users.filter (fun r => !(r.id = id)),
        db.auths.filter (fun r => !(r.userId = id))⟩)
  else
    (ValidationResult.failure [⟨"id", "User not found"⟩], db)

/-- The deletion loop of `DeleteUserUseCase.execute` over the fetched
authentication rows, stopping at the first failed deletion. -/
def DeleteUserUseCase.deleteAuths (db : Db) : List AuthRow → Except (List ValidationError) Db
  | [] => .ok db
  | a :: rest =>
      let (result, db1) := UserRepository.deleteAuthentication db a.id
      if result.valid then
        DeleteUserUseCase.deleteAuths db1 rest
      else
        .error result.errors

/-- `DeleteUserUseCase.execute` (`domain/use-cases/DeleteUserUseCase.ts`):
authentication guard, command validation, resolution of the acting
user, resolution of the target, the self-or-admin authorization rule,
deletion of the authentication rows, then deletion of the user row. -/
def DeleteUserUseCase.execute (db : Db) (context : Context)
    (command : DeleteUserCommandDto) :
    Except DomainError DeleteUserResponseDto × Db :=
  if jsFalsyOptStr context.userId then
    (.error (.authentication "Authentication required"), db)
  else
    let errors := DeleteUserUseCase.validateCommand command
    if errors ≠ [] then
      (.error (.validation "Invalid delete user command" errors), db)
    else
      match UserRepository.findById db (context.userId.getD "") with
      | none => (.error (.authentication "Invalid user session"), db)
      | some requestingUser =>
        match UserRepository.findById db command.userId with
        | none => (.error (.notFound "User not found"), db)
        | some _ =>
          let canDeleteOwnAccount := context.userId = some command.userId
          let isAdmin := requestingUser.isAdmin
          if !canDeleteOwnAccount && !isAdmin then
            (.error (.authorization "You do not have permission to delete this user"), db)
          else
            let userAuthentications :=
              UserRepository.findAuthenticationByUserId db command.userId
            match DeleteUserUseCase.deleteAuths db userAuthentications with
            | .error errs =>
                (.error (.validation "Failed to delete user authentication records" errs), db)
            | .ok db1 =>
                let (deleteUserResult, db2) := UserRepository.delete db1 command.userId
                if !deleteUserResult.valid then
                  (.error (.validation "Failed to delete user" deleteUserResult.errors), db2)
                else
                  (.ok ⟨"User deleted successfully"⟩, db2)

/-- `UserRepository.delete`, Prisma revision
(`data-access/repositories/UserRepository.ts` lines 120-131): the
underlying `prisma.user.delete` removes the unique matching row or
throws `P2025` when there is none; the catch block swallows `P2025`
("Silently succeed if record not found"), so both branches return
normally.  The returned `Except` records that no error escapes. -/
def UserRepository.prismaDelete (db : Db) (id : String) : Except DomainError Unit × Db :=
  if db.users.any (fun r => r.id = id) then
    (.ok (), { db with users := db.users.filter (fun r => !(r.id = id)) })
  else
    (.ok (), db)

/-- `UserRepository.deleteAuthentication`, Prisma revision (lines
279-290): same `P2025`-swallowing pattern on the authentication table. -/
def UserRepository.prismaDeleteAuthentication (db : Db) (id : String) :
    Except DomainError Unit × Db :=
  if db.auths.any (fun r => r.id = id) then
    (.ok (), { db with auths := db.auths.filter (fun r => !(r.id = id)) })
  else
    (.ok (), db)

/-- The error payload serialized by `ErrorHandler.createErrorResponse`
(`web-controller/middleware/ErrorHandler.ts`): message, stable code,
and the field errors when and only when the error is a
`ValidationDomainError`. -/
structure ErrorResponse where
  error : String
  code : String
  fieldErrors : Option (List ValidationError)
deriving Repr, DecidableEq

/-- `ErrorHandler.mapDomainErrorToStatusCode`: the status switch on the
`code` string enum; the `default` branch (shared with `SYSTEM`) yields
500 for any value outside the closed set. -/
def ErrorHandler.mapDomainErrorToStatusCode (code : String) : Nat :=
  if code = "VALIDATION" then 400
  else if code = "AUTHENTICATION" then 401
  else if code = "AUTHORIZATION" then 403
  else if code = "NOT_FOUND" then 404
  else if code = "CONFLICT" then 409
  else 500

/-- `ErrorHandler.createErrorResponse`: field-by-field copy, with
`fieldErrors` attached exactly for validation errors
(`error instanceof ValidationDomainError`). -/
def ErrorHandler.createErrorResponse (e : DomainError) : ErrorResponse :=
  { error := e.message
    code := e.code
    fieldErrors :=
      match e with
      | .validation _ fieldErrors => some fieldErrors
      | _ => none }

/-- `ErrorHandler.handle` status selection for a `DomainError`: the
status is read off the `code` property alone. -/
def ErrorHandler.handleStatus (e : DomainError) : Nat :=
  ErrorHandler.mapDomainErrorToStatusCode e.code

/-- Transaction trace events of the harness model. -/
inductive TxEvent where
  | txBegin
  | txCommit
  | txRollback
deriving Repr, DecidableEq

/-- `PrismaTransactionHelper.executeInTransaction`
(`data-access/utils/PrismaTransactionHelper.ts`): wraps a callback in
`prisma.$transaction`, which opens one scope, commits the state the
callback produced on normal return, and rolls the state back to the
initial one when the callback throws. -/
def PrismaTransactionHelper.executeInTransaction {ε α : Type}
    (cb : Db → Except ε α × Db) (db : Db) : Except ε α × Db × List TxEvent :=
  match cb db with
  | (.ok a, db1) => (.ok a, db1, [TxEvent.txBegin, TxEvent.txCommit])
  | (.error e, _) => (.error e, db, [TxEvent.txBegin, TxEvent.txRollback])

/-- The use-case invocation step of `routeToUseCase`
(`web-controller/utils/RouteUtils.ts` lines 91-97): the transaction
helper block is commented out in the source and the use case is called
directly (`await useCase(req.context!, command)`), so no transaction
event is emitted and whatever state the callback left behind is kept,
also when it throws. -/
def routeToUseCaseInvoke {ε α : Type}
    (cb : Db → Except ε α × Db) (db : Db) : Except ε α × Db × List TxEvent :=
  match cb db with
  | (r, db1) => (r, db1, [])

/-- C1: the claim says the concrete register command succeeds with an
active non-admin user because the freshly constructed entity (id still
unassigned) passes entity validation.  On the code the opposite
happens: `User.validate` unconditionally requires a non-empty id via
`hasValidId`, the use case constructs the entity with an undefined id,
and `RegisterUserUseCase.execute` therefore throws
ValidationDomainError("User entity validation failed") with an `id`
field error before writing anything, for this very command. -/
theorem c1_register_happy_path_rejected_by_entity_validation :
    RegisterUserUseCase.execute ⟨[], []⟩ "11111111-1111-1111-8111-111111111111"
      "22222222-2222-2222-8222-222222222222" "0123456789bcrypt-digest"
      ⟨"a@x.com", "A", "B", "Passw0rd!"⟩ =
    (.error (.validation "User entity validation failed"
      [⟨"id", "ID is required and must be a non-empty string"⟩]), ⟨[], []⟩) := by
  decide

/-- C2: the claim says every top-level use-case invocation happens
inside one atomic transaction scope.  In `routeToUseCase` the
transaction-helper block is commented out and the use case is invoked
directly, so the invocation emits no transaction event at all —
unlike `PrismaTransactionHelper.executeInTransaction`, which opens a
scope and rolls the state back on error (shown here on the register
use case at the concrete command of C1). -/
theorem c2_route_to_use_case_opens_no_transaction :
    (∀ (cb : Db → Except DomainError RegisterUserResponseDto × Db) (db : Db),
      (routeToUseCaseInvoke cb db).2.2 = []) ∧
    (PrismaTransactionHelper.executeInTransaction
      (fun db => RegisterUserUseCase.execute db "11111111-1111-1111-8111-111111111111"
        "22222222-2222-2222-8222-222222222222" "0123456789bcrypt-digest"
        ⟨"a@x.com", "A", "B", "Passw0rd!"⟩) ⟨[], []⟩).2.2 =
      [TxEvent.txBegin, TxEvent.txRollback] := by
  constructor
  · intro cb db
    unfold routeToUseCaseInvoke
    rcases cb db with ⟨r, db1⟩
    rfl
  · decide

/-- C3 counterexample: the four login failure reasons are not reported
identically — an inactive account produces the message "Account is
deactivated" while an unknown email produces "Invalid email or
password", so the internal reason is distinguishable (and the error is
a plain `Error`, not an AuthenticationDomainError). -/
theorem c3_login_messages_differ_between_reasons :
    LoginUserUseCase.execute
      ⟨[⟨"u1", "a@x.com", "A", "B", false, false⟩],
        [⟨"au1", "u1", "email", "a@x.com", some "0123456789hash", true⟩]⟩
      (fun _ _ => true) ⟨"a@x.com", "Passw0rd!"⟩ =
      .error ⟨jsonOfErrors [⟨"account", "Account is deactivated"⟩]⟩ ∧
    LoginUserUseCase.execute ⟨[], []⟩ (fun _ _ => true) ⟨"a@x.com", "Passw0rd!"⟩ =
      .error ⟨jsonOfErrors [⟨"email", "Invalid email or password"⟩]⟩ ∧
    (⟨jsonOfErrors [⟨"account", "Account is deactivated"⟩]⟩ : JsError) ≠
      ⟨jsonOfErrors [⟨"email", "Invalid email or password"⟩]⟩ := by
  refine ⟨by decide, by decide, by decide⟩

/-- C3 amended: for a command passing command validation,
`LoginUserUseCase.execute` fails with a plain `Error` carrying the
JSON-serialized field error "Invalid email or password" when the user
is not found, when the hashed password is missing, and when the
password comparison fails — but with "Account is deactivated" when the
account is inactive, so the response is not identical across the four
internal reasons and no AuthenticationDomainError is involved. -/
theorem c3_login_failure_reason_messages (db : Db)
    (pwCompare : String → String → Bool) (command : LoginUserCommandDto)
    (hv : LoginUserUseCase.validateCommand command = []) :
    (UserRepository.findUserWithAuthentication db command.email "email" = none →
      LoginUserUseCase.execute db pwCompare command =
        .error ⟨jsonOfErrors [⟨"email", "Invalid email or password"⟩]⟩) ∧
    (∀ u a, UserRepository.findUserWithAuthentication db command.email "email" = some (u, a) →
      u.isActive = false →
      LoginUserUseCase.execute db pwCompare command =
        .error ⟨jsonOfErrors [⟨"account", "Account is deactivated"⟩]⟩) ∧
    (∀ u a, UserRepository.findUserWithAuthentication db command.email "email" = some (u, a) →
      u.isActive = true → a.hashedPassword = none →
      LoginUserUseCase.execute db pwCompare command =
        .error ⟨jsonOfErrors [⟨"password", "Invalid email or password"⟩]⟩) ∧
    (∀ u a h, UserRepository.findUserWithAuthentication db command.email "email" = some (u, a) →
      u.isActive = true → a.hashedPassword = some h → h.isEmpty = false →
      pwCompare command.password h = false →
      LoginUserUseCase.execute db pwCompare command =
        .error ⟨jsonOfErrors [⟨"password", "Invalid email or password"⟩]⟩) := by
  refine ⟨?_, ?_, ?_, ?_⟩
  · intro hnone
    unfold LoginUserUseCase.execute
    simp [hv, hnone]
  · intro u a hsome hinactive
    unfold LoginUserUseCase.execute
    simp [hv, hsome, hinactive]
  · intro u a hsome hactive hnopw
    unfold LoginUserUseCase.execute
    simp [hv, hsome, hactive, hnopw]
  · intro u a h hsome hactive hpw hne hcmp
    unfold LoginUserUseCase.execute
    simp [hv, hsome, hactive, hpw, hne, hcmp]

/-- C3 witness: the amended theorem applied at a concrete store with an
unknown email. -/
theorem c3_login_failure_reason_messages_witness :
    LoginUserUseCase.execute ⟨[], []⟩ (fun _ _ => false) ⟨"b@x.com", "Passw0rd!"⟩ =
      .error ⟨jsonOfErrors [⟨"email", "Invalid email or password"⟩]⟩ :=
  (c3_login_failure_reason_messages ⟨[], []⟩ (fun _ _ => false)
    ⟨"b@x.com", "Passw0rd!"⟩ (by decide)).1 (by decide)

/-- C4 counterexample: for the register command with password
"lowercase1" (no uppercase letter, length inside [8,128]) the use case
does not raise any password field error — command validation passes
and the error actually raised is the entity-validation failure on the
unassigned id, whose field list has no "password" entry. -/
theorem c4_no_password_error_for_missing_uppercase :
    (RegisterUserUseCase.execute ⟨[], []⟩ "11111111-1111-1111-8111-111111111111"
      "22222222-2222-2222-8222-222222222222" "0123456789bcrypt-digest"
      ⟨"a@x.com", "A", "B", "lowercase1"⟩).1 =
      .error (.validation "User entity validation failed"
        [⟨"id", "ID is required and must be a non-empty string"⟩]) ∧
    ([⟨"id", "ID is required and must be a non-empty string"⟩] : List ValidationError).all
      (fun e => e.field ≠ "password") := by
  refine ⟨by decide, by decide⟩

/-- C4 amended: the shipped `RegisterUserUseCase.validateCommand` checks
only the password length bounds; for every command whose password is
shorter than 8 or longer than 128 characters, `execute` raises
ValidationDomainError("Invalid registration command") whose field
errors include a "password" entry.  The
uppercase/lowercase/digit complexity rules exist only in a superseded
revision of the use case and are not part of the executed flow. -/
theorem c4_password_length_bounds_validated (db : Db)
    (freshUserId freshAuthId hashed : String) (command : RegisterUserCommandDto)
    (hlen : command.password.length < 8 ∨ command.password.length > 128) :
    (RegisterUserUseCase.execute db freshUserId freshAuthId hashed command).1 =
      .error (.validation "Invalid registration command"
        (RegisterUserUseCase.validateCommand command)) ∧
    (RegisterUserUseCase.validateCommand command).any
      (fun e => e.field == "password") := by
  have hpw : (RegisterUserUseCase.validateCommand command).any
      (fun e => e.field == "password") = true := by
    unfold RegisterUserUseCase.validateCommand
    rcases hlen with h | h
    · simp [List.any_append, h]
    · have h8 : ¬ command.password.length < 8 := by omega
      simp [List.any_append, h, h8]
  have hne : RegisterUserUseCase.validateCommand command ≠ [] := by
    intro hnil
    rw [hnil] at hpw
    simp at hpw
  refine ⟨?_, hpw⟩
  unfold RegisterUserUseCase.execute
  simp [hne]

/-- C4 witness: the amended theorem applied at a concrete command with a
five-character password. -/
theorem c4_password_length_bounds_validated_witness :
    (RegisterUserUseCase.execute ⟨[], []⟩ "u-1" "a-1" "0123456789bcrypt-digest"
      ⟨"a@x.com", "A", "B", "short"⟩).1 =
      .error (.validation "Invalid registration command"
        (RegisterUserUseCase.validateCommand ⟨"a@x.com", "A", "B", "short"⟩)) ∧
    (RegisterUserUseCase.validateCommand ⟨"a@x.com", "A", "B", "short"⟩).any
      (fun e => e.field == "password") :=
  c4_password_length_bounds_validated ⟨[], []⟩ "u-1" "a-1" "0123456789bcrypt-digest"
    ⟨"a@x.com", "A", "B", "short"⟩ (Or.inl (by decide))

/-- C5 counterexample: with no `userId` in the context, `ListAllUsers`
raises AuthorizationDomainError("Authentication required"), whose code
is AUTHORIZATION (mapping to 403), not AUTHENTICATION (401) as the
claim requires for all three private use cases. -/
theorem c5_list_users_unauthenticated_is_authorization :
    GetAllUsersUseCase.execute ⟨[], []⟩ ⟨none⟩ ⟨none, none, none⟩ =
      .error (.authorization "Authentication required") ∧
    DomainError.code (.authorization "Authentication required") = "AUTHORIZATION" ∧
    ErrorHandler.mapDomainErrorToStatusCode "AUTHORIZATION" = 403 := by
  refine ⟨by decide, by decide, by decide⟩

/-- C5 amended: with `context.userId` absent (or empty), `DeleteUser`
raises AuthenticationDomainError("Authentication required") as the
claim says, but `ListAllUsers` raises
AuthorizationDomainError("Authentication required"), and
`GetUserProfile` — which validates its query first — raises the same
AuthorizationDomainError for queries passing validation; both map to
403, not 401. -/
theorem c5_unauthenticated_behavior_per_use_case (db : Db) (context : Context)
    (command : DeleteUserCommandDto) (listQuery : GetAllUsersQueryDto)
    (profileQuery : GetUserProfileQueryDto)
    (hfalsy : jsFalsyOptStr context.userId = true) :
    (DeleteUserUseCase.execute db context command).1 =
      .error (.authentication "Authentication required") ∧
    GetAllUsersUseCase.execute db context listQuery =
      .error (.authorization "Authentication required") ∧
    (GetUserProfileUseCase.validateQuery profileQuery = [] →
      GetUserProfileUseCase.execute db context profileQuery =
        .error (.authorization "Authentication required")) := by
  refine ⟨?_, ?_, ?_⟩
  · unfold DeleteUserUseCase.execute
    simp [hfalsy]
  · unfold GetAllUsersUseCase.execute GetAllUsersUseCase.authorizationCheck
    simp [hfalsy]
  · intro hq
    unfold GetUserProfileUseCase.execute
    simp [hq, hfalsy]

/-- C5 witness: the amended theorem applied at the empty store and a
concrete valid profile query. -/
theorem c5_unauthenticated_behavior_per_use_case_witness :
    (DeleteUserUseCase.execute ⟨[], []⟩ ⟨none⟩ ⟨"u1"⟩).1 =
      .error (.authentication "Authentication required") ∧
    GetAllUsersUseCase.execute ⟨[], []⟩ ⟨none⟩ ⟨none, none, none⟩ =
      .error (.authorization "Authentication required") ∧
    (GetUserProfileUseCase.validateQuery ⟨"u1"⟩ = [] →
      GetUserProfileUseCase.execute ⟨[], []⟩ ⟨none⟩ ⟨"u1"⟩ =
        .error (.authorization "Authentication required")) :=
  c5_unauthenticated_behavior_per_use_case ⟨[], []⟩ ⟨none⟩ ⟨"u1"⟩
    ⟨none, none, none⟩ ⟨"u1"⟩ (by decide)

/-- C6 counterexample: an admin requesting `pageSize=501` as a query
parameter receives a successful page with the size silently clamped to
500 by the `PaginationParams` constructor — no ValidationDomainError
is raised on this path. -/
theorem c6_page_size_501_query_param_is_clamped :
    GetAllUsersUseCase.execute
      ⟨[⟨"12345678-1234-5678-9012-123456789012", "ad@x.com", "Ad", "Min", true, true⟩], []⟩
      ⟨some "12345678-1234-5678-9012-123456789012"⟩
      ⟨none, none, some 501⟩ =
    .ok ⟨[⟨"12345678-1234-5678-9012-123456789012", "ad@x.com", "Ad", "Min", true, true⟩],
      ⟨1, 1, 500, 1, false, false⟩⟩ := by
  decide

/-- C6 amended: `GetAllUsersUseCase.validatePagination` does reject a
resolved page size above 500 — but only a directly supplied
`query.pagination` object can still carry one; a `pageSize` arriving
as a raw query parameter is first clamped to 500 by the
`PaginationParams` constructor and then passes validation, so the call
succeeds with page size 500 instead of failing. -/
theorem c6_page_size_validation_vs_clamping (db : Db) (context : Context)
    (query : GetAllUsersQueryDto)
    (hauth : GetAllUsersUseCase.authorizationCheck db context = none) :
    (∀ p, query.pagination = some p → p.pageSize > 500 →
      GetAllUsersUseCase.execute db context query =
        .error (.validation "Invalid pagination parameters"
          (GetAllUsersUseCase.validatePagination p)) ∧
      (GetAllUsersUseCase.validatePagination p).any (fun e => e.field == "pageSize")) ∧
    (∀ n, query.pagination = none → query.pageSize = some n → n > 500 →
      ∃ r, GetAllUsersUseCase.execute db context query = .ok r ∧
        r.meta.pageSize = 500) := by
  constructor
  · intro p hp hps
    have hbig : (p.pageSize < 1 || p.pageSize > 500) = true := by
      simp
      omega
    have hpe : (GetAllUsersUseCase.validatePagination p).any
        (fun e => e.field == "pageSize") = true := by
      unfold GetAllUsersUseCase.validatePagination
      simp [List.any_append, hbig]
    have hne : GetAllUsersUseCase.validatePagination p ≠ [] := by
      intro hnil
      rw [hnil] at hpe
      simp at hpe
    refine ⟨?_, hpe⟩
    unfold GetAllUsersUseCase.execute
    simp [hauth, hp, hne]
  · intro n hnopag hps hbig
    have hn0 : n ≠ 0 := by omega
    have hresolved : resolveQueryParam query.pageSize 20 = n := by
      rw [hps]
      simp [resolveQueryParam, hn0]
    have hclamp : PaginationParams.make (resolveQueryParam query.page 1)
        (resolveQueryParam query.pageSize 20) =
        ⟨max 1 (resolveQueryParam query.page 1), 500⟩ := by
      unfold PaginationParams.make
      rw [hresolved]
      have : max (1 : Int) n = n := by omega
      rw [this]
      have : min n 500 = 500 := by omega
      rw [this]
    have hvalid : GetAllUsersUseCase.validatePagination
        ⟨max 1 (resolveQueryParam query.page 1), 500⟩ = [] := by
      unfold GetAllUsersUseCase.validatePagination
      have h1 : ¬ (max 1 (resolveQueryParam query.page 1) < 1) := by omega
      simp [h1]
    unfold GetAllUsersUseCase.execute
    rw [hauth]
    simp only [hnopag, hclamp, hvalid]
    refine ⟨_, rfl, rfl⟩

/-- C6 witness: the amended theorem applied at a one-admin store, for a
structurally supplied pagination object with page size 501 and for the
raw query parameter 501. -/
theorem c6_page_size_validation_vs_clamping_witness :
    (GetAllUsersUseCase.execute
        ⟨[⟨"a1", "ad@x.com", "Ad", "Min", true, true⟩], []⟩ ⟨some "a1"⟩
        ⟨some ⟨1, 501⟩, none, none⟩ =
      .error (.validation "Invalid pagination parameters"
        (GetAllUsersUseCase.validatePagination ⟨1, 501⟩)) ∧
      (GetAllUsersUseCase.validatePagination ⟨1, 501⟩).any
        (fun e => e.field == "pageSize")) ∧
    (∃ r, GetAllUsersUseCase.execute
        ⟨[⟨"a1", "ad@x.com", "Ad", "Min", true, true⟩], []⟩ ⟨some "a1"⟩
        ⟨none, none, some 501⟩ = .ok r ∧ r.meta.pageSize = 500) :=
  ⟨(c6_page_size_validation_vs_clamping
      ⟨[⟨"a1", "ad@x.com", "Ad", "Min", true, true⟩], []⟩ ⟨some "a1"⟩
      ⟨some ⟨1, 501⟩, none, none⟩ (by decide)).1 ⟨1, 501⟩ rfl (by decide),
    (c6_page_size_validation_vs_clamping
      ⟨[⟨"a1", "ad@x.com", "Ad", "Min", true, true⟩], []⟩ ⟨some "a1"⟩
      ⟨none, none, some 501⟩ (by decide)).2 501 rfl rfl (by decide)⟩

/-- The authentication-deletion loop of `DeleteUserUseCase` succeeds and
leaves the user table untouched whenever the rows it is given are
present in the store and carry pairwise distinct ids (the primary-key
invariant of the `user_authentications` table). -/
theorem DeleteUserUseCase.deleteAuths_ok (l : List AuthRow) (db : Db)
    (hsub : ∀ a ∈ l, a ∈ db.auths) (hnd : (l.map AuthRow.id).Nodup) :
    ∃ db1, DeleteUserUseCase.deleteAuths db l = .ok db1 ∧ db1.users = db.users := by
  induction l generalizing db with
  | nil => exact ⟨db, rfl, rfl⟩
  | cons a rest ih =>
    have ha : a ∈ db.auths := hsub a (List.mem_cons_self a rest)
    have hany : db.auths.any (fun r => r.id = a.id) = true := by
      rw [List.any_eq_true]
      exact ⟨a, ha, by simp⟩
    simp only [List.map_cons, List.nodup_cons] at hnd
    have hsub1 : ∀ x ∈ rest, x ∈ db.auths.filter (fun r => !(r.id = a.id)) := by
      intro x hx
      rw [List.mem_filter]
      refine ⟨hsub x (List.mem_cons_of_mem a hx), ?_⟩
      have hxid : x.id ≠ a.id := by
        intro he
        exact hnd.1 (he ▸ List.mem_map_of_mem AuthRow.id hx)
      simp [hxid]
    obtain ⟨db1, hdb1, husers⟩ :=
      ih ⟨db.users, db.auths.filter (fun r => !(r.id = a.id))⟩ hsub1 hnd.2
    refine ⟨db1, ?_, husers⟩
    unfold DeleteUserUseCase.deleteAuths UserRepository.deleteAuthentication
    simp only [hany, if_true]
    simpa [ValidationResult.success] using hdb1

/-- C7: the delete authorization matrix.  With an authenticated caller
that resolves, a target that resolves, a command passing validation
and the primary-key invariant on authentication ids: a non-admin
deleting another user gets
AuthorizationDomainError("You do not have permission to delete this
user"); an admin deleting any user succeeds; and any caller deleting
their own account succeeds regardless of the admin flag. -/
theorem c7_delete_authorization_matrix (db : Db) (callerId : String)
    (command : DeleteUserCommandDto) (caller : User) (target : User)
    (hfalsy : callerId.isEmpty = false)
    (hreq : UserRepository.findById db callerId = some caller)
    (htgt : UserRepository.findById db command.userId = some target)
    (hcmd : DeleteUserUseCase.validateCommand command = [])
    (hnodup : (db.auths.map AuthRow.id).Nodup) :
    (caller.isAdmin = false → callerId ≠ command.userId →
      (DeleteUserUseCase.execute db ⟨some callerId⟩ command).1 =
        .error (.authorization "You do not have permission to delete this user")) ∧
    (caller.isAdmin = true →
      ∃ db2, DeleteUserUseCase.execute db ⟨some callerId⟩ command =
        (.ok ⟨"User deleted successfully"⟩, db2)) ∧
    (callerId = command.userId →
      ∃ db2, DeleteUserUseCase.execute db ⟨some callerId⟩ command =
        (.ok ⟨"User deleted successfully"⟩, db2)) := by
  have hsuccess : caller.isAdmin = true ∨ callerId = command.userId →
      ∃ db2, DeleteUserUseCase.execute db ⟨some callerId⟩ command =
        (.ok ⟨"User deleted successfully"⟩, db2) := by
    intro hcond
    have hsub : ∀ a ∈ UserRepository.findAuthenticationByUserId db command.userId,
        a ∈ db.auths := by
      intro a haf
      exact (List.mem_filter.mp haf).1
    have hndl : ((UserRepository.findAuthenticationByUserId db command.userId).map
        AuthRow.id).Nodup := by
      refine List.Nodup.sublist ?_ hnodup
      exact List.Sublist.map AuthRow.id (List.filter_sublist db.auths)
    obtain ⟨db1, hloop, husers⟩ :=
      DeleteUserUseCase.deleteAuths_ok
        (UserRepository.findAuthenticationByUserId db command.userId) db hsub hndl
    have hrow : ∃ row ∈ db.users, row.id = command.userId := by
      unfold UserRepository.findById at htgt
      rcases hfind : db.users.find? (fun r => r.id = command.userId) with _ | row
      · rw [hfind] at htgt
        simp at htgt
      · refine ⟨row, List.mem_of_find?_eq_some hfind, ?_⟩
        have := List.find?_some hfind
        simpa using this
    obtain ⟨row, hmem, hrowid⟩ := hrow
    have hanyu : db1.users.any (fun r => r.id = command.userId) = true := by
      rw [List.any_eq_true]
      exact ⟨row, husers ▸ hmem, by simp [hrowid]⟩
    have hdel : UserRepository.delete db1 command.userId =
        (ValidationResult.success,
          ⟨db1.users.filter (fun r => !(r.id = command.userId)),
            db1.auths.filter (fun r => !(r.userId = command.userId))⟩) := by
      unfold UserRepository.delete
      simp only [hanyu, if_true]
    refine ⟨⟨db1.users.filter (fun r => !(r.id = command.userId)),
      db1.auths.filter (fun r => !(r.userId = command.userId))⟩, ?_⟩
    unfold DeleteUserUseCase.execute
    by_cases hEq : callerId = command.userId
    · simp only [jsFalsyOptStr, hfalsy, hcmd, Option.getD_some, hreq, htgt]
      simp only [hEq, hloop]
      simp only [hdel]
      simp [ValidationResult.success]
    · have hadm : caller.isAdmin = true := by
        rcases hcond with h | h
        · exact h
        · exact absurd h hEq
      simp only [jsFalsyOptStr, hfalsy, hcmd, Option.getD_some, hreq, htgt]
      simp only [hEq, hadm, hloop]
      simp only [hdel]
      simp [ValidationResult.success]
  refine ⟨?_, ?_, ?_⟩
  · intro hadm hne
    unfold DeleteUserUseCase.execute
    simp only [jsFalsyOptStr, hfalsy, hcmd, Option.getD_some, hreq, htgt]
    simp [hne, hadm]
  · intro hadm
    exact hsuccess (Or.inl hadm)
  · intro hself
    exact hsuccess (Or.inr hself)

/-- C7 witness: the authorization matrix applied at a concrete
two-user store, in the non-admin-deleting-another-user case. -/
theorem c7_delete_authorization_matrix_witness :
    (DeleteUserUseCase.execute
      ⟨[⟨"11111111-1111-1111-8111-111111111111", "c@x.com", "C", "C", true, false⟩,
        ⟨"22222222-2222-2222-8222-222222222222", "t@x.com", "T", "T", true, false⟩], []⟩
      ⟨some "11111111-1111-1111-8111-111111111111"⟩
      ⟨"22222222-2222-2222-8222-222222222222"⟩).1 =
    .error (.authorization "You do not have permission to delete this user") :=
  (c7_delete_authorization_matrix
    ⟨[⟨"11111111-1111-1111-8111-111111111111", "c@x.com", "C", "C", true, false⟩,
      ⟨"22222222-2222-2222-8222-222222222222", "t@x.com", "T", "T", true, false⟩], []⟩
    "11111111-1111-1111-8111-111111111111"
    ⟨"22222222-2222-2222-8222-222222222222"⟩
    ⟨some "11111111-1111-1111-8111-111111111111", "c@x.com", "C", "C", true, false⟩
    ⟨some "22222222-2222-2222-8222-222222222222", "t@x.com", "T", "T", true, false⟩
    (by decide) (by decide) (by decide) (by decide) (by decide)).1
    rfl (by decide)

/-- C8: the boundary status mapping is a function of the stable `code`
alone: the six codes map to 400/401/403/404/409/500, any value outside
the closed set falls into the default 500 branch, and the serialized
response of a ValidationDomainError carries the untouched field-error
list. -/
theorem c8_error_code_status_mapping :
    (ErrorHandler.mapDomainErrorToStatusCode "VALIDATION" = 400 ∧
      ErrorHandler.mapDomainErrorToStatusCode "AUTHENTICATION" = 401 ∧
      ErrorHandler.mapDomainErrorToStatusCode "AUTHORIZATION" = 403 ∧
      ErrorHandler.mapDomainErrorToStatusCode "NOT_FOUND" = 404 ∧
      ErrorHandler.mapDomainErrorToStatusCode "CONFLICT" = 409 ∧
      ErrorHandler.mapDomainErrorToStatusCode "SYSTEM" = 500) ∧
    (∀ c : String, c ∉ (["VALIDATION", "AUTHENTICATION", "AUTHORIZATION",
        "NOT_FOUND", "CONFLICT"] : List String) →
      ErrorHandler.mapDomainErrorToStatusCode c = 500) ∧
    (∀ e : DomainError, ErrorHandler.handleStatus e =
      ErrorHandler.mapDomainErrorToStatusCode e.code) ∧
    (∀ (m : String) (fieldErrors : List ValidationError),
      ErrorHandler.createErrorResponse (.validation m fieldErrors) =
        ⟨m, "VALIDATION", some fieldErrors⟩) := by
  refine ⟨by decide, ?_, fun e => rfl, fun m fieldErrors => rfl⟩
  intro c hc
  simp only [List.mem_cons, List.mem_singleton, not_or] at hc
  obtain ⟨h1, h2, h3, h4, h5, -⟩ := hc
  unfold ErrorHandler.mapDomainErrorToStatusCode
  simp [h1, h2, h3, h4, h5]

/-- C8 witness: the mapping theorem applied at the unrecognized code
"SOMETHING_ELSE" and at a concrete validation error. -/
theorem c8_error_code_status_mapping_witness :
    ErrorHandler.mapDomainErrorToStatusCode "SOMETHING_ELSE" = 500 ∧
    ErrorHandler.createErrorResponse
      (.validation "Invalid registration command" [⟨"password", "Password is required"⟩]) =
      ⟨"Invalid registration command", "VALIDATION",
        some [⟨"password", "Password is required"⟩]⟩ :=
  ⟨c8_error_code_status_mapping.2.1 "SOMETHING_ELSE" (by decide),
    c8_error_code_status_mapping.2.2.2 "Invalid registration command"
      [⟨"password", "Password is required"⟩]⟩

/-- C9: the pagination metadata computes
`totalPages = ceil(total / pageSize)` (stated through the ceiling
division of Mathlib), `hasNext = page < totalPages` and
`hasPrev = page > 1`; with `total = 3`, `pageSize = 1` page 1 yields
`totalPages = 3`, `hasNext`, not `hasPrev`, and page 3 yields
`hasPrev`, not `hasNext`. -/
theorem c9_pagination_meta_formulas :
    (∀ (total page pageSize : ℕ), 1 ≤ page → 1 ≤ pageSize → pageSize ≤ 500 →
      (PaginationMeta.make total page pageSize).totalPages =
        ((total ⌈/⌉ pageSize : ℕ) : ℤ) ∧
      (PaginationMeta.make total page pageSize).hasNext =
        decide ((page : ℤ) < (PaginationMeta.make total page pageSize).totalPages) ∧
      (PaginationMeta.make total page pageSize).hasPrev =
        decide ((1 : ℤ) < (page : ℤ))) ∧
    PaginationMeta.make 3 1 1 = ⟨3, 1, 1, 3, true, false⟩ ∧
    PaginationMeta.make 3 3 1 = ⟨3, 3, 1, 3, false, true⟩ := by
  refine ⟨?_, by decide, by decide⟩
  intro total page pageSize hpage hps hps500
  refine ⟨?_, rfl, rfl⟩
  show mathCeilDiv total pageSize = ((total ⌈/⌉ pageSize : ℕ) : ℤ)
  unfold mathCeilDiv
  rw [Nat.ceilDiv_eq_add_pred_div]
  have h1 : (total : ℤ) + pageSize - 1 = ((total + pageSize - 1 : ℕ) : ℤ) := by
    omega
  rw [h1]
  rfl

/-- C9 witness: the formula component applied at
`total = 3, page = 1, pageSize = 1`. -/
theorem c9_pagination_meta_formulas_witness :
    (PaginationMeta.make 3 1 1).totalPages = (((3 : ℕ) ⌈/⌉ (1 : ℕ) : ℕ) : ℤ) ∧
    (PaginationMeta.make 3 1 1).hasNext =
      decide (((1 : ℕ) : ℤ) < (PaginationMeta.make 3 1 1).totalPages) ∧
    (PaginationMeta.make 3 1 1).hasPrev = decide ((1 : ℤ) < ((1 : ℕ) : ℤ)) :=
  c9_pagination_meta_formulas.1 3 1 1 (by decide) (by decide) (by decide)

/-- C10: deleting a missing row is a silent no-op at the repository
level — the Prisma `delete`/`deleteAuthentication` swallow the
storage record-not-found error (`P2025`) and return normally with the
state unchanged — and, for a resolving caller and a valid command,
`DeleteUserUseCase.execute` reports NotFoundDomainError("User not
found") exactly when the `findById` pre-check on the target misses;
no later step of the use case produces a not-found error. -/
theorem c10_delete_missing_row_is_noop (db : Db) (missingId cid : String)
    (command : DeleteUserCommandDto) (requester : User)
    (hfalsy : cid.isEmpty = false)
    (hreq : UserRepository.findById db cid = some requester)
    (hcmd : DeleteUserUseCase.validateCommand command = []) :
    (db.users.all (fun r => !(r.id = missingId)) = true →
      UserRepository.prismaDelete db missingId = (.ok (), db)) ∧
    (db.auths.all (fun r => !(r.id = missingId)) = true →
      UserRepository.prismaDeleteAuthentication db missingId = (.ok (), db)) ∧
    ((DeleteUserUseCase.execute db ⟨some cid⟩ command).1 =
        .error (.notFound "User not found") ↔
      UserRepository.findById db command.userId = none) := by
  refine ⟨?_, ?_, ?_⟩
  · intro h
    have hany : db.users.any (fun r => r.id = missingId) = false := by
      rw [List.any_eq_false]
      intro r hr
      simpa using (List.all_eq_true.mp h) r hr
    unfold UserRepository.prismaDelete
    simp [hany]
  · intro h
    have hany : db.auths.any (fun r => r.id = missingId) = false := by
      rw [List.any_eq_false]
      intro r hr
      simpa using (List.all_eq_true.mp h) r hr
    unfold UserRepository.prismaDeleteAuthentication
    simp [hany]
  · constructor
    · intro hres
      by_contra hsome
      rcases Option.ne_none_iff_exists'.mp hsome with ⟨t, ht⟩
      unfold DeleteUserUseCase.execute at hres
      simp only [jsFalsyOptStr, hfalsy, hcmd, Option.getD_some, hreq, ht] at hres
      repeat' split at hres
      all_goals simp at hres
    · intro hnone
      unfold DeleteUserUseCase.execute
      simp [jsFalsyOptStr, hfalsy, hcmd, hreq, hnone]

/-- C10 witness: the theorem applied at a one-user store with a missing
target id. -/
theorem c10_delete_missing_row_is_noop_witness :
    (UserRepository.prismaDelete
        ⟨[⟨"11111111-1111-1111-8111-111111111111", "c@x.com", "C", "C", true, false⟩], []⟩
        "33333333-3333-3333-8333-333333333333" =
      (.ok (),
        ⟨[⟨"11111111-1111-1111-8111-111111111111", "c@x.com", "C", "C", true, false⟩], []⟩)) ∧
    ((DeleteUserUseCase.execute
        ⟨[⟨"11111111-1111-1111-8111-111111111111", "c@x.com", "C", "C", true, false⟩], []⟩
        ⟨some "11111111-1111-1111-8111-111111111111"⟩
        ⟨"33333333-3333-3333-8333-333333333333"⟩).1 =
      .error (.notFound "User not found")) :=
  ⟨(c10_delete_missing_row_is_noop
      ⟨[⟨"11111111-1111-1111-8111-111111111111", "c@x.com", "C", "C", true, false⟩], []⟩
      "33333333-3333-3333-8333-333333333333" "11111111-1111-1111-8111-111111111111"
      ⟨"33333333-3333-3333-8333-333333333333"⟩
      ⟨some "11111111-1111-1111-8111-111111111111", "c@x.com", "C", "C", true, false⟩
      (by decide) (by decide) (by decide)).1 (by decide),
    (c10_delete_missing_row_is_noop
      ⟨[⟨"11111111-1111-1111-8111-111111111111", "c@x.com", "C", "C", true, false⟩], []⟩
      "33333333-3333-3333-8333-333333333333" "11111111-1111-1111-8111-111111111111"
      ⟨"33333333-3333-3333-8333-333333333333"⟩
      ⟨some "11111111-1111-1111-8111-111111111111", "c@x.com", "C", "C", true, false⟩
      (by decide) (by decide) (by decide)).2.2.mpr (by decide)⟩
